import Mathlib

/-!
Verification of `readthedocs/oauth/services/base.py` (class `Service`).

Shallow embedding conventions:
* A page of the provider's paginated API is modelled by `Page`: either the
  HTTP request itself raises a transport error (`requests.RequestException`),
  or token refresh fails (`oauthlib InvalidClientIdError`), or a response
  arrives carrying an HTTP status, a flag saying whether its JSON body is
  malformed (so that `.json()` raises `ValueError`), and the list of result
  items.  The chain of pages linked by "next url" pointers is modelled as a
  `List Page`: the next-url of page `i` designates page `i+1`, and the last
  page of the list carries no next-url.
* Python exceptions escaping `Service.paginate` are modelled by the `.error`
  side of an `Except`; the exception type/message is `PaginateError`.
* Database tables are modelled as Lean lists of rows; Django queryset
  `filter` / `exclude` / `delete` become list filters.
* Datetimes are modelled by their (integer) epoch value, so Python's
  `timezone.make_aware(datetime.fromtimestamp(x))` is the identity on the
  epoch value `x`.
-/

/-- One page of a provider's paginated collection, as seen by
`Service.paginate`: the outcome of `self.get_session().get(url)` plus the
decoded body.  `transportError` is a `requests.RequestException` raised by the
`get` call itself (so the local variable `resp` is never bound);
`invalidClient` is an `InvalidClientIdError` raised during the automatic token
refresh; `resp status malformed items` is a response with the given HTTP
status whose JSON body either fails to decode (`malformed = true`, in which
case `get_paginated_results` raises `ValueError`) or yields `items`. -/
inductive Page where
  | transportError : Page
  | invalidClient : Page
  | resp (status : Nat) (malformed : Bool) (items : List String) : Page
deriving DecidableEq, Repr

/-- Exceptions that can escape `Service.paginate`.
`syncService msg` is `SyncServiceError(msg)` (raised on HTTP 401);
`reconnect msg` is the bare `Exception(msg)` raised in the
`InvalidClientIdError` handler; `unboundLocal` is the `UnboundLocalError`
raised when the `except (RequestException, ValueError)` handler evaluates
`resp.json()` while `resp` was never assigned; `attributeError` is the
`AttributeError` raised by `None.get(...)` when no session exists. -/
inductive PaginateError where
  | syncService (msg : String) : PaginateError
  | reconnect (msg : String) : PaginateError
  | unboundLocal : PaginateError
  | attributeError : PaginateError
deriving DecidableEq, Repr

/-- The message of the `SyncServiceError` raised on HTTP 401, from
`Service.paginate`: `'Our access to your {provider} account was revoked. '
'Please, reconnect it from your social account connections.'` with the
provider name formatted in. -/
def revokedMessage (provider : String) : String :=
  "Our access to your " ++ provider ++
    " account was revoked. Please, reconnect it from your social account connections."

/-- The message of the exception raised in the `InvalidClientIdError` handler
of `Service.paginate`: `raise Exception('You should reconnect your account')`. -/
def reconnectMessage : String := "You should reconnect your account"

/-- `Service.paginate`, one Lean equation per page of the chain.
`hasSession` records whether `get_session()` yields a session (it is `none`
exactly when the account has no `SocialToken`, see `create_session`); in that
case `None.get(url)` raises `AttributeError`, caught by none of the handlers.
Otherwise, mirroring the Python body: a transport error at the `get` call is
caught by `except (RequestException, ValueError)`, whose logging line
`resp.json()` then raises `UnboundLocalError` (`resp` unbound), which
propagates; an `InvalidClientIdError` is turned into
`Exception(reconnectMessage)`; a 401 response raises `SyncServiceError`; a
malformed JSON body makes `get_paginated_results` raise `ValueError`, caught,
and the call returns `[]`; otherwise the page's items are returned, extended
with the recursive result when a next url is present (i.e. when further pages
remain), any exception of the recursive call propagating uncaught. -/
def paginate (hasSession : Bool) (provider : String) : List Page → Except PaginateError (List String)
  | [] => .ok []
  | p :: rest =>
    if hasSession = false then
      .error .attributeError
    else
      match p with
      | .transportError => .error .unboundLocal
      | .invalidClient => .error (.reconnect reconnectMessage)
      | .resp status malformed items =>
        if status = 401 then
          .error (.syncService (revokedMessage provider))
        else if malformed then
          .ok []
        else if rest.isEmpty then
          .ok items
        else
          match paginate hasSession provider rest with
          | .ok more => .ok (items ++ more)
          | .error e => .error e

/-- A page whose request succeeds, whose status is not 401 and whose JSON
body decodes: on such a page `paginate` neither raises nor truncates. -/
def isGoodPage : Page → Bool
  | .resp status malformed _ => status ≠ 401 && !malformed
  | _ => false

/-- The items carried by a page's decoded body (`get_paginated_results`). -/
def pageItems : Page → List String
  | .resp _ _ items => items
  | _ => []

example : paginate true "GitHub"
    [Page.resp 200 false ["a/one", "a/two"], Page.resp 200 false ["a/three"]]
    = .ok ["a/one", "a/two", "a/three"] := rfl

example : paginate true "GitHub"
    [Page.resp 200 false ["a/one", "a/two"], Page.resp 200 true []]
    = .ok ["a/one", "a/two"] := rfl

example : paginate true "GitHub"
    [Page.resp 200 false ["a/one", "a/two"], Page.transportError]
    = .error PaginateError.unboundLocal := rfl

example : paginate true "GitHub"
    [Page.resp 200 false ["a/one"], Page.resp 401 false []]
    = .error (PaginateError.syncService (revokedMessage "GitHub")) := rfl

/-- A `RemoteRepository` as `Service.sync` consumes it: only its `full_name`
is read there. -/
structure RemoteRepo where
  full_name : String
deriving DecidableEq, Repr

/-- A `RemoteOrganization` as `Service.sync` consumes it: only its `slug` is
read there. -/
structure RemoteOrg where
  slug : String
deriving DecidableEq, Repr

/-- A row of the `RemoteRepositoryRelation` table as `Service.sync` filters
it: the linked repository's `full_name` (the `remoterepository__full_name`
lookup), the owning `user` and the `account` that granted access.  Users and
accounts are modelled by their numeric primary keys. -/
structure RelationRow where
  full_name : String
  user : Nat
  account : Nat
deriving DecidableEq, Repr

/-- A user-to-`RemoteOrganization` link row as `Service.sync` filters it
(`self.user.oauth_organizations`): the organization's `slug`, the `user` and
the `account`. -/
structure OrgLinkRow where
  slug : String
  user : Nat
  account : Nat
deriving DecidableEq, Repr

/-- The deletion phase of `Service.sync`, for a given `user` and `account`.
Inputs mirror the Python locals: `remote_repositories` is what
`sync_repositories()` returned, `(remote_organizations,
remote_repositories_organizations)` what `sync_organizations()` returned
(entries that failed to map are `none`); `relations` and `org_links` are the
current table contents.  Mirroring the body:
`all_remote_repositories = remote_repositories +
remote_repositories_organizations`; `repository_full_names` collects
`r.full_name` for the non-`None` entries; the first delete removes the rows of
`self.user.remote_repository_relations` excluded by
`remoterepository__full_name__in=repository_full_names` and filtered by
`account=self.account`; the second does the same on
`self.user.oauth_organizations` with `organization_slugs`.  Returns the two
tables after deletion. -/
def sync (user account : Nat)
    (remote_repositories : List (Option RemoteRepo))
    (remote_organizations : List (Option RemoteOrg))
    (remote_repositories_organizations : List (Option RemoteRepo))
    (relations : List RelationRow)
    (org_links : List OrgLinkRow) : List RelationRow × List OrgLinkRow :=
  let all_remote_repositories := remote_repositories ++ remote_repositories_organizations
  let repository_full_names := (all_remote_repositories.filterMap id).map RemoteRepo.full_name
  let relations' := relations.filter fun rel =>
    !(rel.user == user && !(repository_full_names.contains rel.full_name)
        && rel.account == account)
  let organization_slugs := (remote_organizations.filterMap id).map RemoteOrg.slug
  let org_links' := org_links.filter fun l =>
    !(l.user == user && !(organization_slugs.contains l.slug) && l.account == account)
  (relations', org_links')

/-- A `SocialToken` row (allauth), the Credential of the spec: primary key,
access token (`token`), refresh token (`token_secret`), optional absolute
expiry epoch (`expires_at`), and the provider app's `client_id` / `secret`
reached through `token.app`. -/
structure SocialToken where
  id : Nat
  token : String
  token_secret : String
  expires_at : Option Int
  app_client_id : String
  app_secret : String
deriving DecidableEq, Repr

/-- The `token` dict handed to `OAuth2Session` by `Service.create_session`:
always `access_token` and `token_type='bearer'`; `refresh_token` and
`expires_in` only when the stored token has an `expires_at`. -/
structure TokenConfig where
  access_token : String
  token_type : String
  refresh_token : Option String
  expires_in : Option Int
deriving DecidableEq, Repr

/-- The `OAuth2Session` built by `Service.create_session`: client id, token
dict, and the `auto_refresh_kwargs` (app client id and secret). -/
structure OAuthSession where
  client_id : String
  token : TokenConfig
  auto_refresh_client_id : String
  auto_refresh_client_secret : String
deriving DecidableEq, Repr

/-- `Service.create_session`.  `tokenOpt` is
`self.account.socialtoken_set.first()` (`none` when the account stores no
credential) and `now` is `timezone.now()` as an epoch value.  With no token
the method returns `None` without raising; otherwise it builds the token
config — adding `refresh_token` and `expires_in = expires_at - now` only when
`expires_at` is set — and returns the configured session. -/
def create_session (tokenOpt : Option SocialToken) (now : Int) : Option OAuthSession :=
  match tokenOpt with
  | none => none
  | some token =>
    let base : TokenConfig :=
      { access_token := token.token, token_type := "bearer",
        refresh_token := none, expires_in := none }
    let token_config : TokenConfig :=
      match token.expires_at with
      | some exp =>
        { base with refresh_token := some token.token_secret, expires_in := some (exp - now) }
      | none => base
    some { client_id := token.app_client_id, token := token_config,
           auto_refresh_client_id := token.app_client_id,
           auto_refresh_client_secret := token.app_secret }

/-- The OAuth refresh response handed to the token-updater closure, as the
docstring of `Service.token_updater` documents it (the fields the closure
reads). -/
structure RefreshData where
  access_token : String
  expires_at : Int
deriving DecidableEq, Repr

/-- `timezone.make_aware(datetime.fromtimestamp(x))` — since datetimes are
modelled by their epoch value, this is the identity on that value. -/
def make_aware_fromtimestamp (x : Int) : Int := x

/-- The mutation performed on the captured `token` by the `_updater` closure
of `Service.token_updater`: `token.token = data['access_token']` and
`token.expires_at = timezone.make_aware(datetime.fromtimestamp(data['expires_at']))`.
All other fields, the primary key included, are untouched. -/
def token_updater_closure (token : SocialToken) (data : RefreshData) : SocialToken :=
  { token with token := data.access_token,
               expires_at := some (make_aware_fromtimestamp data.expires_at) }

/-- `token.save()` on a table of `SocialToken` rows: the row whose primary
key matches is replaced in place; no row is inserted. -/
def save_token (table : List SocialToken) (t : SocialToken) : List SocialToken :=
  table.map fun r => if r.id = t.id then t else r

/-- The full effect of one invocation of the `_updater` closure on the token
table: mutate the captured `token` then persist it (`token.save()` runs
before the closure returns, hence before the retried call continues). -/
def token_updater_run (table : List SocialToken) (token : SocialToken)
    (data : RefreshData) : List SocialToken :=
  save_token table (token_updater_closure token data)

/-- A row of the `RemoteRelation` table (named `RemoteRepositoryRelation` in
the service code): foreign keys `remoterepository`, `user` and `account`,
modelled by their numeric primary keys. -/
structure RemoteRelation where
  remoterepository : Nat
  user : Nat
  account : Nat
deriving DecidableEq, Repr

/-- Database-level errors surfaced by the ORM. `integrityError` is the
`IntegrityError` the database raises when an insert violates the
`unique_together = ('remoterepository', 'user')` constraint installed by
migration `0011_add_remote_relation_model`. -/
inductive DBError where
  | integrityError : DBError
deriving DecidableEq, Repr

/-- `true` when no two rows of the table share the `(remoterepository, user)`
pair — the state of a table accepted by the unique constraint of migration
`0011_add_remote_relation_model`. -/
def uniqueRepoUser : List RemoteRelation → Bool
  | [] => true
  | r :: rs =>
    !(rs.any fun s => s.remoterepository == r.remoterepository && s.user == r.user)
      && uniqueRepoUser rs

/-- `Service.get_remote_repository_relation`:
`RemoteRepositoryRelation.objects.get_or_create(remoterepository=repo,
user=self.user, account=self.account)` against a table guarded by the
`(remoterepository, user)` unique constraint.  Django's `get_or_create` looks
a row up by all three keyword arguments and, when none matches, inserts a new
row with exactly those fields; the insert is rejected with `IntegrityError`
when a row with the same `(remoterepository, user)` already exists (and the
retried lookup still matches nothing).  Returns the relation row and the
table after the call. -/
def get_remote_repository_relation (table : List RemoteRelation)
    (repo user account : Nat) : Except DBError (RemoteRelation × List RemoteRelation) :=
  match table.find? (fun r =>
      r.remoterepository == repo && r.user == user && r.account == account) with
  | some r => .ok (r, table)
  | none =>
    if table.any (fun r => r.remoterepository == repo && r.user == user) then
      .error .integrityError
    else
      let row : RemoteRelation := ⟨repo, user, account⟩
      .ok (row, table ++ [row])

example : get_remote_repository_relation [⟨7, 3, 1⟩] 7 3 1 = .ok (⟨7, 3, 1⟩, [⟨7, 3, 1⟩]) := rfl
example : get_remote_repository_relation [⟨7, 3, 1⟩] 7 3 2 = .error .integrityError := rfl
example : get_remote_repository_relation [⟨7, 3, 1⟩] 8 3 1
    = .ok (⟨8, 3, 1⟩, [⟨7, 3, 1⟩, ⟨8, 3, 1⟩]) := rfl

/-- A project, as `Service.is_project_service` reads it: its `repo` URL. -/
structure Project where
  repo : String
deriving DecidableEq, Repr

/-- A compiled URL regex (`re.compile(...)`, the `url_pattern` class
attribute of concrete services): `search s` returns the start position of the
first match of the pattern somewhere in `s`, or `none` when the pattern
matches nowhere. -/
structure UrlPattern where
  search : String → Option Nat

/-- The `url_pattern` class attribute of the base `Service` class: `None`. -/
def base_url_pattern : Option UrlPattern := none

/-- `Service.is_project_service`: `cls.url_pattern is not None and
cls.url_pattern.search(project.repo) is not None`. -/
def is_project_service (url_pattern : Option UrlPattern) (project : Project) : Bool :=
  match url_pattern with
  | none => false
  | some p => (p.search project.repo).isSome

/-- The outcome of calling an optional provider capability.  `ok` is a normal
return; `notImplementedError` is the `NotImplementedError` Python reserves
for abstract methods a subclass failed to override; `requestFailed` is a true
failure of the underlying provider call (e.g. a `RequestException`), listed
to express that the three outcomes are distinguishable by type. -/
inductive ProviderResult (α : Type) where
  | ok (value : α) : ProviderResult α
  | notImplementedError : ProviderResult α
  | requestFailed (msg : String) : ProviderResult α
deriving DecidableEq, Repr

/-- `Service.get_provider_data` on the base class: `raise NotImplementedError`. -/
def get_provider_data (_project : Project) (_integration : Nat) :
    ProviderResult (List (String × String)) := .notImplementedError

/-- `Service.setup_webhook` on the base class: `raise NotImplementedError`. -/
def setup_webhook (_project : Project) (_integration : Option Nat) :
    ProviderResult (Bool × String) := .notImplementedError

/-- `Service.update_webhook` on the base class: `raise NotImplementedError`. -/
def update_webhook (_project : Project) (_integration : Nat) :
    ProviderResult (Bool × String) := .notImplementedError

/-- `Service.send_build_status` on the base class: `raise NotImplementedError`. -/
def send_build_status (_build : Nat) (_commit : String) (_state : String)
    (_link_to_build : Bool) : ProviderResult Bool := .notImplementedError


/-! ## Theorems -/

/-- If every page of `pre` is good, an exception produced by paginating the
remaining chain `tail` propagates uncaught through the calls for `pre`. -/
lemma paginate_error_through_good_pages (provider : String) (tail : List Page)
    (htail : tail ≠ []) (e : PaginateError)
    (htl : paginate true provider tail = .error e) :
    ∀ pre : List Page, (∀ p ∈ pre, isGoodPage p = true) →
      paginate true provider (pre ++ tail) = .error e := by
  intro pre
  induction pre with
  | nil => intro _; exact htl
  | cons p pre' ih =>
    intro h
    have hp := h p (List.mem_cons_self _ _)
    have hpre' : ∀ q ∈ pre', isGoodPage q = true :=
      fun q hq => h q (List.mem_cons_of_mem _ hq)
    cases p with
    | transportError => simp [isGoodPage] at hp
    | invalidClient => simp [isGoodPage] at hp
    | resp status malformed items =>
      simp only [isGoodPage, Bool.and_eq_true, decide_eq_true_eq,
        Bool.not_eq_true'] at hp
      obtain ⟨h401, hmal⟩ := hp
      have hne : (pre' ++ tail).isEmpty = false := by
        cases pre' with
        | nil =>
          cases tail with
          | nil => exact absurd rfl htail
          | cons a l => rfl
        | cons a l => rfl
      rw [List.cons_append, paginate]
      simp [h401, hmal, hne, ih hpre']

/-- Claim C2: for every chain of pages in which each response yields a
sequence of items and an optional next-page URL (here: the rest of the
chain), with the last page's next-page URL absent, `Service.paginate` returns
exactly the concatenation of the item sequences of every page, in page order
and preserving within-page order. -/
theorem C2_paginate_concatenates (provider : String) (pages : List Page)
    (h : ∀ p ∈ pages, isGoodPage p = true) :
    paginate true provider pages = .ok (pages.map pageItems).flatten := by
  induction pages with
  | nil => rfl
  | cons p rest ih =>
    have hp := h p (List.mem_cons_self _ _)
    have hrest : ∀ q ∈ rest, isGoodPage q = true :=
      fun q hq => h q (List.mem_cons_of_mem _ hq)
    cases p with
    | transportError => simp [isGoodPage] at hp
    | invalidClient => simp [isGoodPage] at hp
    | resp status malformed items =>
      simp only [isGoodPage, Bool.and_eq_true, decide_eq_true_eq,
        Bool.not_eq_true'] at hp
      obtain ⟨h401, hmal⟩ := hp
      cases rest with
      | nil => simp [paginate, h401, hmal, pageItems]
      | cons q qs =>
        rw [paginate]
        simp [h401, hmal, ih hrest, pageItems]

/-- Witness for C2, the spec's scenario: two pages `["a/one","a/two"]` and
`["a/three"]`, the second with no next pointer, paginate to
`["a/one","a/two","a/three"]`. -/
theorem C2_witness :
    (∀ p ∈ [Page.resp 200 false ["a/one", "a/two"], Page.resp 200 false ["a/three"]],
        isGoodPage p = true) ∧
      paginate true "GitHub"
          [Page.resp 200 false ["a/one", "a/two"], Page.resp 200 false ["a/three"]]
        = .ok ["a/one", "a/two", "a/three"] :=
  ⟨by decide,
    (C2_paginate_concatenates "GitHub"
      [Page.resp 200 false ["a/one", "a/two"], Page.resp 200 false ["a/three"]]
      (by decide)).trans rfl⟩

/-- Claim C4: a pagination response with HTTP status 401 makes
`Service.paginate` raise the distinguished `SyncServiceError` whose message
names the provider; the error is not absorbed by paginate's internal
exception handling, pagination aborts immediately (the result does not
depend on the pages after the 401 one) and no items are returned. -/
theorem C4_401_raises_access_revoked (provider : String) (pre : List Page)
    (h : ∀ p ∈ pre, isGoodPage p = true) (malformed : Bool) (items : List String)
    (rest : List Page) :
    paginate true provider (pre ++ Page.resp 401 malformed items :: rest)
        = .error (.syncService (revokedMessage provider)) ∧
      ∃ a b, revokedMessage provider = a ++ (provider ++ b) :=
  ⟨paginate_error_through_good_pages provider (Page.resp 401 malformed items :: rest)
      (List.cons_ne_nil _ _) _ rfl pre h,
    ⟨"Our access to your ",
      " account was revoked. Please, reconnect it from your social account connections.",
      rfl⟩⟩

/-- Witness for C4: a good first page, then a 401 page, then a further page
that is never fetched; paginate raises the revoked error with the provider's
name in the message. -/
theorem C4_witness :
    (∀ p ∈ [Page.resp 200 false ["a/one"]], isGoodPage p = true) ∧
      paginate true "GitHub"
          ([Page.resp 200 false ["a/one"]] ++
            Page.resp 401 false [] :: [Page.resp 200 false ["never"]])
        = .error (.syncService (revokedMessage "GitHub")) ∧
      ∃ a b, revokedMessage "GitHub" = a ++ ("GitHub" ++ b) :=
  ⟨by decide,
    C4_401_raises_access_revoked "GitHub" [Page.resp 200 false ["a/one"]]
      (by decide) false [] [Page.resp 200 false ["never"]]⟩

/-- Claim C5: an `InvalidClientIdError` during token refresh makes
`Service.paginate` raise the distinguished "must re-authenticate" exception
(`Exception('You should reconnect your account')`) to the caller rather than
swallowing it, and that condition is distinct — by exception type and
message — from the `SyncServiceError` raised on HTTP 401. -/
theorem C5_invalid_client_reauth (provider : String) (pre : List Page)
    (h : ∀ p ∈ pre, isGoodPage p = true) (rest : List Page) :
    paginate true provider (pre ++ Page.invalidClient :: rest)
        = .error (.reconnect reconnectMessage) ∧
      (∀ m : String, PaginateError.reconnect reconnectMessage ≠ .syncService m) ∧
      reconnectMessage ≠ revokedMessage provider :=
  ⟨paginate_error_through_good_pages provider (Page.invalidClient :: rest)
      (List.cons_ne_nil _ _) _ rfl pre h,
    fun _ hcontra => PaginateError.noConfusion hcontra,
    fun hcontra => by
      have hd : reconnectMessage.data =
          "Our access to your ".data ++ (provider.data ++
            " account was revoked. Please, reconnect it from your social account connections.".data) :=
        congrArg String.data hcontra
      have hh := congrArg List.head? hd
      rw [show reconnectMessage.data.head? = some 'Y' from rfl] at hh
      rw [show (("Our access to your ".data : List Char) ++ (provider.data ++
          " account was revoked. Please, reconnect it from your social account connections.".data)).head?
            = some 'O' from rfl] at hh
      exact absurd hh (by decide)⟩

/-- Witness for C5: a good first page then a token-refresh rejection;
paginate surfaces the re-authentication exception, distinct from the
401 revocation exception. -/
theorem C5_witness :
    (∀ p ∈ [Page.resp 200 false ["a/one"]], isGoodPage p = true) ∧
      paginate true "GitHub" ([Page.resp 200 false ["a/one"]] ++ Page.invalidClient :: [])
          = .error (.reconnect reconnectMessage) ∧
        (∀ m : String, PaginateError.reconnect reconnectMessage ≠ .syncService m) ∧
        reconnectMessage ≠ revokedMessage "GitHub" :=
  ⟨by decide,
    C5_invalid_client_reauth "GitHub" [Page.resp 200 false ["a/one"]] (by decide) []⟩

/-- Claim C3 (settled as a code bug): the spec says a transport error or a
malformed-JSON body on one page degrades to an empty page without raising.
The malformed-JSON half holds (second conjunct: a good page 1 followed by a
malformed page 2 yields exactly page 1's items), but on a transport error the
`except (RequestException, ValueError)` handler evaluates `resp.json()` with
`resp` never assigned, so an `UnboundLocalError` propagates out of
`Service.paginate` and page 1's items are lost (first conjunct). -/
theorem C3_transport_error_page_raises :
    paginate true "GitHub" [Page.resp 200 false ["a/one", "a/two"], Page.transportError]
        = .error PaginateError.unboundLocal ∧
      paginate true "GitHub" [Page.resp 200 false ["a/one", "a/two"], Page.resp 200 true []]
        = .ok ["a/one", "a/two"] := ⟨rfl, rfl⟩

/-- Claim C1: `Service.sync` deletes exactly those relation rows of this user
and this account whose repository full_name is not in the union of the two
repository sequences (`None` entries skipped), and exactly those
organization-link rows of this user and this account whose slug is not among
the slugs of the non-`None` organizations; rows of other users or other
accounts are never deleted. -/
theorem C1_sync_deletes_exactly (user account : Nat)
    (remote_repositories : List (Option RemoteRepo))
    (remote_organizations : List (Option RemoteOrg))
    (remote_repositories_organizations : List (Option RemoteRepo))
    (relations : List RelationRow) (org_links : List OrgLinkRow) :
    (∀ rel : RelationRow,
      rel ∈ (sync user account remote_repositories remote_organizations
          remote_repositories_organizations relations org_links).1 ↔
        rel ∈ relations ∧
          ¬(rel.user = user ∧ rel.account = account ∧
            rel.full_name ∉
              (((remote_repositories ++ remote_repositories_organizations).filterMap id).map
                RemoteRepo.full_name))) ∧
    (∀ l : OrgLinkRow,
      l ∈ (sync user account remote_repositories remote_organizations
          remote_repositories_organizations relations org_links).2 ↔
        l ∈ org_links ∧
          ¬(l.user = user ∧ l.account = account ∧
            l.slug ∉ ((remote_organizations.filterMap id).map RemoteOrg.slug))) ∧
    (∀ rel ∈ relations, rel.user ≠ user ∨ rel.account ≠ account →
      rel ∈ (sync user account remote_repositories remote_organizations
          remote_repositories_organizations relations org_links).1) ∧
    (∀ l ∈ org_links, l.user ≠ user ∨ l.account ≠ account →
      l ∈ (sync user account remote_repositories remote_organizations
          remote_repositories_organizations relations org_links).2) := by
  have hrel : ∀ rel : RelationRow,
      rel ∈ (sync user account remote_repositories remote_organizations
          remote_repositories_organizations relations org_links).1 ↔
        rel ∈ relations ∧
          ¬(rel.user = user ∧ rel.account = account ∧
            rel.full_name ∉
              (((remote_repositories ++ remote_repositories_organizations).filterMap id).map
                RemoteRepo.full_name)) := by
    intro rel
    simp only [sync, List.mem_filter, List.contains, Bool.not_eq_true',
      Bool.and_eq_false_iff, beq_eq_false_iff_ne, ne_eq, Bool.not_eq_false',
      List.elem_iff]
    tauto
  have horg : ∀ l : OrgLinkRow,
      l ∈ (sync user account remote_repositories remote_organizations
          remote_repositories_organizations relations org_links).2 ↔
        l ∈ org_links ∧
          ¬(l.user = user ∧ l.account = account ∧
            l.slug ∉ ((remote_organizations.filterMap id).map RemoteOrg.slug)) := by
    intro l
    simp only [sync, List.mem_filter, List.contains, Bool.not_eq_true',
      Bool.and_eq_false_iff, beq_eq_false_iff_ne, ne_eq, Bool.not_eq_false',
      List.elem_iff]
    tauto
  refine ⟨hrel, horg, ?_, ?_⟩
  · intro rel hmem hother
    exact (hrel rel).mpr ⟨hmem, fun hc => hother.elim (fun h => h hc.1) (fun h => h hc.2.1)⟩
  · intro l hmem hother
    exact (horg l).mpr ⟨hmem, fun hc => hother.elim (fun h => h hc.1) (fun h => h hc.2.1)⟩

/-- Witness for C1: in a concrete sync pass for user 1 / account 10, a stale
relation row held through a different account (11) survives the deletion. -/
theorem C1_witness :
    (⟨"gone", 1, 11⟩ : RelationRow) ∈
      (sync 1 10 [some ⟨"a/one"⟩, none] [some ⟨"orgx"⟩] [some ⟨"b/two"⟩]
        [⟨"a/one", 1, 10⟩, ⟨"gone", 1, 10⟩, ⟨"gone", 1, 11⟩, ⟨"gone", 2, 10⟩]
        [⟨"orgx", 1, 10⟩, ⟨"old", 1, 10⟩]).1 :=
  (C1_sync_deletes_exactly 1 10 [some ⟨"a/one"⟩, none] [some ⟨"orgx"⟩]
      [some ⟨"b/two"⟩]
      [⟨"a/one", 1, 10⟩, ⟨"gone", 1, 10⟩, ⟨"gone", 1, 11⟩, ⟨"gone", 2, 10⟩]
      [⟨"orgx", 1, 10⟩, ⟨"old", 1, 10⟩]).2.2.1
    ⟨"gone", 1, 11⟩ (by decide) (Or.inr (by decide))

/-- Inserting a row whose `(remoterepository, user)` pair is absent from a
table satisfying the unique constraint keeps the constraint satisfied. -/
lemma uniqueRepoUser_append_new (row : RemoteRelation) :
    ∀ db : List RemoteRelation, uniqueRepoUser db = true →
      db.any (fun r => r.remoterepository == row.remoterepository
          && r.user == row.user) = false →
      uniqueRepoUser (db ++ [row]) = true := by
  intro db
  induction db with
  | nil => intro _ _; rfl
  | cons d l ih =>
    intro hu hnone
    simp only [uniqueRepoUser, Bool.and_eq_true, Bool.not_eq_true'] at hu
    obtain ⟨hd, hl⟩ := hu
    simp only [List.any_cons, Bool.or_eq_false_iff] at hnone
    obtain ⟨hdr, hlr⟩ := hnone
    simp only [List.cons_append, uniqueRepoUser, Bool.and_eq_true, Bool.not_eq_true',
      List.append_eq, List.any_append, List.any_cons, List.any_nil, Bool.or_eq_false_iff,
      Bool.or_false]
    refine ⟨⟨hd, ?_⟩, ih hl hlr⟩
    simp only [Bool.and_eq_false_iff, beq_eq_false_iff_ne, ne_eq] at hdr ⊢
    rcases hdr with h | h
    · exact Or.inl fun he => h he.symm
    · exact Or.inr fun he => h he.symm

/-- In a table satisfying the unique constraint, two rows sharing the
`(remoterepository, user)` pair are the same row. -/
lemma uniqueRepoUser_eq_of_share (r s : RemoteRelation) :
    ∀ db : List RemoteRelation, uniqueRepoUser db = true →
      r ∈ db → s ∈ db → r.remoterepository = s.remoterepository →
      r.user = s.user → r = s := by
  intro db
  induction db with
  | nil => intro _ h; cases h
  | cons d l ih =>
    intro hu hr hs hrepo huser
    simp only [uniqueRepoUser, Bool.and_eq_true, Bool.not_eq_true'] at hu
    obtain ⟨hd, hl⟩ := hu
    rcases List.mem_cons.mp hr with hr1 | hr2
    · rcases List.mem_cons.mp hs with hs1 | hs2
      · rw [hr1, hs1]
      · exfalso
        have hp : (l.any fun x => x.remoterepository == d.remoterepository
            && x.user == d.user) = true := by
          refine List.any_eq_true.mpr ⟨s, hs2, ?_⟩
          simp only [Bool.and_eq_true, beq_iff_eq]
          subst hr1
          exact ⟨hrepo.symm, huser.symm⟩
        rw [hd] at hp
        exact Bool.noConfusion hp
    · rcases List.mem_cons.mp hs with hs1 | hs2
      · exfalso
        have hp : (l.any fun x => x.remoterepository == d.remoterepository
            && x.user == d.user) = true := by
          refine List.any_eq_true.mpr ⟨r, hr2, ?_⟩
          simp only [Bool.and_eq_true, beq_iff_eq]
          subst hs1
          exact ⟨hrepo, huser⟩
        rw [hd] at hp
        exact Bool.noConfusion hp
      · exact ih hl hr2 hs2 hrepo huser

/-- Counterexample for C6 as stated: user 3 already holds a relation row for
repository 7 through account 1; when account 2 of the same user asserts
access, `get_or_create` keyed on `(remoterepository, user, account)` matches
nothing, attempts an insert, and the `(remoterepository, user)` unique
constraint rejects it with `IntegrityError` — so the stored row still
carries account 1, not the account that most recently asserted access. -/
theorem C6_counterexample :
    get_remote_repository_relation [⟨7, 3, 1⟩] 7 3 2 = .error .integrityError ∧
      (⟨7, 3, 1⟩ : RemoteRelation).account ≠ 2 := ⟨rfl, by decide⟩

/-- Claim C6 as amended: on a table satisfying the `(remoterepository, user)`
unique constraint of migration `0011_add_remote_relation_model`,
`Service.get_remote_repository_relation` never produces a duplicate row for
the same `(repository, user)`: every successful call preserves the constraint
and returns a row with the requested repository and user.  But when the same
user already holds the repository through a *different* account, the call
does not transfer the row to the new account — the insert is rejected with
`IntegrityError`, so the relation row carries the account that created it,
not the account that most recently asserted access. -/
theorem C6_get_or_create_unique (db : List RemoteRelation) (repo user account : Nat)
    (hdb : uniqueRepoUser db = true) :
    (∀ row db', get_remote_repository_relation db repo user account = .ok (row, db') →
      uniqueRepoUser db' = true ∧ row.remoterepository = repo ∧ row.user = user) ∧
    (∀ r ∈ db, r.remoterepository = repo → r.user = user → r.account ≠ account →
      get_remote_repository_relation db repo user account = .error .integrityError) := by
  constructor
  · intro row db' hok
    rw [get_remote_repository_relation] at hok
    cases hfind : db.find? (fun r =>
        r.remoterepository == repo && r.user == user && r.account == account) with
    | some s =>
      simp only [hfind, Except.ok.injEq, Prod.mk.injEq] at hok
      obtain ⟨h1, h2⟩ := hok
      have hps := List.find?_some hfind
      simp only [Bool.and_eq_true, beq_iff_eq] at hps
      subst h1 h2
      exact ⟨hdb, hps.1.1, hps.1.2⟩
    | none =>
      simp only [hfind] at hok
      cases hany : db.any (fun r => r.remoterepository == repo && r.user == user) with
      | true =>
        simp only [hany, if_true] at hok
        exact Except.noConfusion hok
      | false =>
        simp only [hany, Bool.false_eq_true, if_false, Except.ok.injEq, Prod.mk.injEq] at hok
        obtain ⟨h1, h2⟩ := hok
        subst h1 h2
        exact ⟨uniqueRepoUser_append_new ⟨repo, user, account⟩ db hdb hany, rfl, rfl⟩
  · intro r hr hrepo huser hacct
    have hfind : db.find? (fun x =>
        x.remoterepository == repo && x.user == user && x.account == account) = none := by
      cases hfind : db.find? (fun x =>
          x.remoterepository == repo && x.user == user && x.account == account) with
      | none => rfl
      | some s =>
        exfalso
        have hps := List.find?_some hfind
        simp only [Bool.and_eq_true, beq_iff_eq] at hps
        have hs : s ∈ db := List.mem_of_find?_eq_some hfind
        have heq : r = s :=
          uniqueRepoUser_eq_of_share r s db hdb hr hs
            (hrepo.trans hps.1.1.symm) (huser.trans hps.1.2.symm)
        rw [heq] at hacct
        exact hacct hps.2
    have hpr : (fun x : RemoteRelation =>
        x.remoterepository == repo && x.user == user) r = true := by
      simp only [Bool.and_eq_true, beq_iff_eq]
      exact ⟨hrepo, huser⟩
    have hany : db.any (fun x => x.remoterepository == repo && x.user == user) = true :=
      List.any_eq_true.mpr ⟨r, hr, hpr⟩
    rw [get_remote_repository_relation]
    simp only [hfind, hany, if_true]

/-- Witness for C6 (amended): applying the theorem on the one-row table
`[(7, 3, 1)]` when account 2 of user 3 asserts access to repository 7. -/
theorem C6_witness :
    uniqueRepoUser [(⟨7, 3, 1⟩ : RemoteRelation)] = true ∧
      get_remote_repository_relation [⟨7, 3, 1⟩] 7 3 2 = .error .integrityError :=
  ⟨by decide,
    (C6_get_or_create_unique [⟨7, 3, 1⟩] 7 3 2 (by decide)).2 ⟨7, 3, 1⟩
      (by decide) rfl rfl (by decide)⟩

/-- Counterexample for C7 as stated: on the base `Service`, each optional
capability is `raise NotImplementedError` — exactly the abstract-method
fault the claim says is *not* raised; no distinct "not supported" result
value is produced. -/
theorem C7_counterexample :
    setup_webhook ⟨"https://github.com/org/repo"⟩ none = .notImplementedError ∧
      update_webhook ⟨"https://github.com/org/repo"⟩ 0 = .notImplementedError ∧
      send_build_status 0 "abc123" "success" false = .notImplementedError ∧
      get_provider_data ⟨"https://github.com/org/repo"⟩ 0 = .notImplementedError :=
  ⟨rfl, rfl, rfl, rfl⟩

/-- Claim C7 as amended: every optional capability left unimplemented by a
provider variant raises `NotImplementedError` on the base `Service` — the
abstract-method fault itself, not a separate "unsupported" result — and that
exception is distinguishable by type from a true failure of a provider call
and from any successful return, so a caller can still tell the cases apart
only by catching `NotImplementedError`. -/
theorem C7_base_capabilities_not_implemented (project : Project) (integration : Nat)
    (build : Nat) (commit : String) (state : String) (link_to_build : Bool)
    (integrationOpt : Option Nat) (msg : String) :
    get_provider_data project integration = .notImplementedError ∧
      setup_webhook project integrationOpt = .notImplementedError ∧
      update_webhook project integration = .notImplementedError ∧
      send_build_status build commit state link_to_build = .notImplementedError ∧
      (ProviderResult.notImplementedError : ProviderResult Bool) ≠ .requestFailed msg ∧
      (∀ b : Bool, (ProviderResult.notImplementedError : ProviderResult Bool) ≠ .ok b) :=
  ⟨rfl, rfl, rfl, rfl, fun h => ProviderResult.noConfusion h,
    fun _ h => ProviderResult.noConfusion h⟩

/-- Counterexample for C8 as stated: for an account with no stored
credential, `create_session` does return `None` without raising, but a sync
pass for that account does crash: `paginate` calls `None.get(url)`, and the
resulting `AttributeError` is caught by none of its handlers. -/
theorem C8_counterexample :
    create_session none 0 = none ∧
      paginate false "GitHub" [Page.resp 200 false ["a/one"]]
        = .error PaginateError.attributeError := ⟨rfl, rfl⟩

/-- Claim C8 as amended: for every account with no stored credential,
`Service.create_session` returns `None` without raising; but a caller
performing a sync pass is *not* shielded — `paginate` invoked with the
resulting `None` session raises an uncaught `AttributeError` on its first
page, so the pass faults unless some caller outside this module absorbs it. -/
theorem C8_no_token_no_session (now : Int) (provider : String) (p : Page)
    (rest : List Page) :
    create_session none now = none ∧
      paginate false provider (p :: rest) = .error PaginateError.attributeError :=
  ⟨rfl, rfl⟩

/-- Claim C9: the `_updater` closure produced by `Service.token_updater`
stores the refresh response's access token and absolute expiry on the same
`SocialToken` record (same primary key, other fields untouched) and persists
it via `token.save()` before returning — the table keeps its size (no
duplicate credential row) and rows with other primary keys are unchanged. -/
theorem C9_token_updater_persists (table : List SocialToken) (token : SocialToken)
    (data : RefreshData) (h : token ∈ table) :
    (token_updater_run table token data).length = table.length ∧
      token_updater_closure token data ∈ token_updater_run table token data ∧
      (token_updater_closure token data).id = token.id ∧
      (token_updater_closure token data).token = data.access_token ∧
      (token_updater_closure token data).expires_at
        = some (make_aware_fromtimestamp data.expires_at) ∧
      (∀ r ∈ table, r.id ≠ token.id → r ∈ token_updater_run table token data) := by
  refine ⟨?_, ?_, rfl, rfl, rfl, ?_⟩
  · simp [token_updater_run, save_token]
  · exact List.mem_map.mpr ⟨token, h, by simp [save_token, token_updater_closure]⟩
  · intro r hr hne
    exact List.mem_map.mpr ⟨r, hr, by simp [save_token, token_updater_closure, hne]⟩

/-- Witness for C9: refreshing the only credential row replaces it in place. -/
theorem C9_witness :
    (⟨5, "old", "refresh", some 100, "cid", "sec"⟩ : SocialToken) ∈
        [(⟨5, "old", "refresh", some 100, "cid", "sec"⟩ : SocialToken)] ∧
      (token_updater_run [⟨5, "old", "refresh", some 100, "cid", "sec"⟩]
          ⟨5, "old", "refresh", some 100, "cid", "sec"⟩ ⟨"new", 1449218652⟩).length = 1 :=
  ⟨by decide,
    (C9_token_updater_persists [⟨5, "old", "refresh", some 100, "cid", "sec"⟩]
        ⟨5, "old", "refresh", some 100, "cid", "sec"⟩ ⟨"new", 1449218652⟩
        (by decide)).1.trans rfl⟩

/-- Claim C10: `Service.is_project_service` returns `False` whenever the
class's `url_pattern` is `None` (in particular the base class, whose
`url_pattern` is `None`, never claims a project), and when a pattern is set
it returns `True` exactly when the pattern matches somewhere in the
project's repository URL. -/
theorem C10_is_project_service (url_pattern : Option UrlPattern) (project : Project) :
    is_project_service base_url_pattern project = false ∧
      is_project_service none project = false ∧
      (is_project_service url_pattern project = true ↔
        ∃ p, url_pattern = some p ∧ (p.search project.repo).isSome = true) := by
  refine ⟨rfl, rfl, ?_⟩
  cases url_pattern with
  | none =>
    simp [is_project_service]
  | some p =>
    simp [is_project_service]
